import Mathlib

/-
Verification of the tag-all Firefox extension's offline outbox / drain engine
against its specification.

The embedding below is a shallow model of the JavaScript sources:
  - src/firefox-extension/background.js   (capture, duplicate guard, sync queue,
    drain engine processSyncQueue, ensureWorkspace / ensureTag, deleteBookmark)
  - src/firefox-extension/sidebar/sidebar.js (removeFromSyncQueue cancellation)

browser.storage.local is modelled by the Storage structure, the remote libsql
store by the DB structure, SQL statements by Lean functions on DB, and the
all-or-nothing semantics of client.batch by an atomic DB update.  Remote calls
that may fail (network / auth) take an explicit failure schedule.  The async
interleaving of in-flight processSyncQueue executions is modelled by a
small-step world/event semantics in which every `await` in the source is a
yield point.
-/

namespace TagAll

/-- Queue element built by addToSyncQueue in background.js (title, url,
selection, created_at in seconds, added_at in milliseconds). -/
structure SaveIntent where
  title : String
  url : String
  selection : String
  created_at : Nat
  added_at : Nat
deriving Repr, DecidableEq

/-- Model of browser.storage.local: the two Turso credentials and the
persisted syncQueue blob. -/
structure Storage where
  tursoUrl : Option String
  tursoToken : Option String
  syncQueue : List SaveIntent
deriving Repr, DecidableEq

/-- JavaScript truthiness of a possibly-missing string config value:
undefined and the empty string are falsy. -/
def truthy : Option String → Bool
  | none => false
  | some s => s != ""

/-- Row of the remote workspaces table.  ensureWorkspace inserts only the
name column, so position is optional (NULL when never set). -/
structure WorkspaceRow where
  id : Nat
  name : String
  position : Option Nat
deriving Repr, DecidableEq

/-- Row of the remote tags table. -/
structure TagRow where
  id : Nat
  name : String
  color : String
  position : Nat
deriving Repr, DecidableEq

/-- Row of the remote items table as inserted by processSyncQueue. -/
structure ItemRow where
  id : Nat
  text : String
  url : String
  summary : String
  item_type : String
  workspace_id : Nat
  position : Nat
  created_at : Nat
  updated_at : Nat
deriving Repr, DecidableEq

/-- Join row of the remote item_tags table. -/
structure ItemTagRow where
  item_id : Nat
  tag_id : Nat
deriving Repr, DecidableEq

/-- State of the remote libsql store: the four tables plus the generated-id
counters backing INTEGER PRIMARY KEY / RETURNING id. -/
structure DB where
  workspaces : List WorkspaceRow
  tags : List TagRow
  items : List ItemRow
  item_tags : List ItemTagRow
  nextWorkspaceId : Nat
  nextTagId : Nat
  nextItemId : Nat
deriving Repr, DecidableEq

/-- Value of the SQL subquery COALESCE(MAX(position), -1) + 1 over a list of
existing positions: 0 when none exist, 1 + max otherwise. -/
def nextPosition (ps : List Nat) : Nat :=
  match ps with
  | [] => 0
  | _ => ps.foldl Nat.max 0 + 1

/-- Result rows of SELECT id FROM workspaces WHERE name = ?. -/
def wsRowsByName (db : DB) (name : String) : List WorkspaceRow :=
  db.workspaces.filter (fun w => w.name = name)

/-- Result rows of SELECT id FROM tags WHERE name = ?. -/
def tagRowsByName (db : DB) (name : String) : List TagRow :=
  db.tags.filter (fun t => t.name = name)

/-- Result rows of SELECT id FROM items WHERE url = ?. -/
def itemRowsByUrl (db : DB) (url : String) : List ItemRow :=
  db.items.filter (fun r => r.url = url)

/-- Effect of INSERT INTO workspaces (name) VALUES (?) RETURNING id: only the
name column is given a value, so the stored position is NULL. -/
def insertWorkspaceRow (db : DB) (name : String) : Nat × DB :=
  let newId := db.nextWorkspaceId
  (newId,
   { db with
       workspaces := db.workspaces ++ [{ id := newId, name := name, position := none }],
       nextWorkspaceId := newId + 1 })

/-- Effect of INSERT INTO tags (name, color, position) VALUES (?, ?,
(SELECT COALESCE(MAX(position), -1) + 1 FROM tags)) RETURNING id. -/
def insertTagRow (db : DB) (name color : String) : Nat × DB :=
  let newId := db.nextTagId
  let pos := nextPosition (db.tags.map (fun t => t.position))
  (newId,
   { db with
       tags := db.tags ++ [{ id := newId, name := name, color := color, position := pos }],
       nextTagId := newId + 1 })

/-- Effect of the item INSERT issued by processSyncQueue step 3: position is
COALESCE(MAX(position), -1) + 1 over items of the same workspace, created_at
and updated_at are both the intent's created_at, item_type is daily. -/
def insertItemRow (db : DB) (it : SaveIntent) (wid : Nat) : Nat × DB :=
  let pos := nextPosition ((db.items.filter (fun r => r.workspace_id = wid)).map
      (fun r => r.position))
  let newId := db.nextItemId
  let row : ItemRow :=
    { id := newId, text := it.title, url := it.url, summary := it.selection,
      item_type := "daily", workspace_id := wid, position := pos,
      created_at := it.created_at, updated_at := it.created_at }
  (newId, { db with items := db.items ++ [row], nextItemId := newId + 1 })

/-- Effect of the atomic client.batch of the two item_tags INSERTs
(processSyncQueue step 5). -/
def batchInsertJoins (db : DB) (itemId t1 t2 : Nat) : DB :=
  { db with
      item_tags := db.item_tags ++
        [{ item_id := itemId, tag_id := t1 }, { item_id := itemId, tag_id := t2 }] }

/-- Effect of the atomic client.batch issued by deleteBookmark: DELETE FROM
item_tags WHERE item_id = ? followed by DELETE FROM items WHERE id = ?. -/
def deleteBatch (db : DB) (itemId : Nat) : DB :=
  { db with
      item_tags := db.item_tags.filter (fun r => r.item_id ≠ itemId),
      items := db.items.filter (fun r => r.id ≠ itemId) }

/-- Statements the Reference Resolver may issue, recorded so that theorems
can speak about which calls performed an insert. -/
inductive Stmt where
  | selectWorkspace (name : String)
  | insertWorkspace (name : String)
  | selectTag (name : String)
  | insertTag (name color : String)
deriving Repr, DecidableEq

/-- ensureWorkspace from background.js (success path): SELECT by name, return
the first row's id when found, otherwise INSERT (name only) RETURNING id.
Also returns the list of statements issued. -/
def ensureWorkspace (db : DB) (name : String) : Nat × DB × List Stmt :=
  match wsRowsByName db name with
  | w :: _ => (w.id, db, [Stmt.selectWorkspace name])
  | [] =>
    let (newId, db') := insertWorkspaceRow db name
    (newId, db', [Stmt.selectWorkspace name, Stmt.insertWorkspace name])

/-- ensureTag from background.js (success path): SELECT by name, return the
first row's id when found, otherwise INSERT with the computed position
RETURNING id.  Also returns the list of statements issued. -/
def ensureTag (db : DB) (name color : String) : Nat × DB × List Stmt :=
  match tagRowsByName db name with
  | t :: _ => (t.id, db, [Stmt.selectTag name])
  | [] =>
    let (newId, db') := insertTagRow db name color
    (newId, db', [Stmt.selectTag name, Stmt.insertTag name color])

/-- Pop the next outcome off a failure schedule for remote calls; an
exhausted schedule means every remaining call succeeds. -/
def takeFail (sched : List Bool) : Bool × List Bool :=
  match sched with
  | [] => (false, [])
  | b :: rest => (b, rest)

/-- ensureWorkspace with possible remote failures: each client.execute
consumes one schedule entry and throws when it is true.  A thrown error
carries the remote state at the throw (a failed statement has no effect). -/
def ensureWorkspaceF (db : DB) (name : String) (sched : List Bool) :
    Except DB (Nat × DB × List Bool) :=
  let (f1, s1) := takeFail sched
  if f1 then .error db else
  match wsRowsByName db name with
  | w :: _ => .ok (w.id, db, s1)
  | [] =>
    let (f2, s2) := takeFail s1
    if f2 then .error db else
    let (newId, db') := insertWorkspaceRow db name
    .ok (newId, db', s2)

/-- ensureTag with possible remote failures. -/
def ensureTagF (db : DB) (name color : String) (sched : List Bool) :
    Except DB (Nat × DB × List Bool) :=
  let (f1, s1) := takeFail sched
  if f1 then .error db else
  match tagRowsByName db name with
  | t :: _ => .ok (t.id, db, s1)
  | [] =>
    let (f2, s2) := takeFail s1
    if f2 then .error db else
    let (newId, db') := insertTagRow db name color
    .ok (newId, db', s2)

/-- Body of the try block of processSyncQueue for the head intent: resolve
the workspace, the two tags, insert the item, batch-insert the join rows.
Any remote failure aborts the whole body; the error reaching the step's
catch carries the remote state at the failure, i.e. earlier statements of
the step are not rolled back. -/
def drainBodyF (db : DB) (item : SaveIntent) (sched : List Bool) :
    Except DB (DB × List Bool) :=
  match ensureWorkspaceF db "web-bookmark" sched with
  | .error dbe => .error dbe
  | .ok (wid, db1, s1) =>
    match ensureTagF db1 "待处理" "#FFA500" s1 with
    | .error dbe => .error dbe
    | .ok (t1, db2, s2) =>
      match ensureTagF db2 "web-bookmark" "#4A9EFF" s2 with
      | .error dbe => .error dbe
      | .ok (t2, db3, s3) =>
        let (f4, s4) := takeFail s3
        if f4 then .error db3 else
        let (itemId, db4) := insertItemRow db3 item wid
        let (f5, s5) := takeFail s4
        if f5 then .error db4 else
        .ok (batchInsertJoins db4 itemId t1 t2, s5)

/-- Success-path remote effect of one drain step, used by the interleaving
model where remote calls are assumed to succeed. -/
def drainRemote (db : DB) (item : SaveIntent) : DB :=
  let (wid, db1, _) := ensureWorkspace db "web-bookmark"
  let (t1, db2, _) := ensureTag db1 "待处理" "#FFA500"
  let (t2, db3, _) := ensureTag db2 "web-bookmark" "#4A9EFF"
  let (itemId, db4) := insertItemRow db3 item wid
  batchInsertJoins db4 itemId t1 t2

/-- One sequential execution of processSyncQueue from background.js, with no
interleaved mutators.  Returns the new storage, the new remote state, the
broadcast messages sent, and whether the function re-invoked itself to drain
the next head.  The outer Except models an exception escaping the function:
the source's try/catch confines every remote failure, so the result is
always ok. -/
def processSyncQueueStep (st : Storage) (db : DB) (sched : List Bool) :
    Except Unit (Storage × DB × List String × Bool) :=
  if st.syncQueue.isEmpty || !truthy st.tursoUrl || !truthy st.tursoToken then
    .ok (st, db, [], false)
  else
    match st.syncQueue with
    | [] => .ok (st, db, [], false)
    | item :: _ =>
      match drainBodyF db item sched with
      | .error dbe => .ok (st, dbe, [], false)
      | .ok (db', _) =>
        let q' := st.syncQueue.drop 1
        .ok ({ st with syncQueue := q' }, db', ["refresh-bookmarks"], !q'.isEmpty)

/-- checkDuplicateUrl from background.js: the local queue is consulted first;
the remote lookup (SELECT ... LIMIT 1) runs only when both credentials are
truthy, and a failing remote lookup is caught and reported as false.  The
storage and remote state are threaded through to express that the check has
no side effects. -/
def checkDuplicateUrl (st : Storage) (db : DB) (remoteOk : Bool) (url : String) :
    Bool × Storage × DB :=
  if st.syncQueue.any (fun item => item.url = url) then (true, st, db)
  else if !truthy st.tursoUrl || !truthy st.tursoToken then (false, st, db)
  else if remoteOk then (!((itemRowsByUrl db url).take 1).isEmpty, st, db)
  else (false, st, db)

/-- Data returned by the content-extraction round trip. -/
structure ExtractedContent where
  title : String
  summary : String
deriving Repr, DecidableEq

/-- The fields of the browser tab used by the capture path. -/
structure TabInfo where
  title : String
  url : String
deriving Repr, DecidableEq

/-- Queue element built by addToSyncQueue: title falls back to the tab title
when the extracted title is empty (JS ||), created_at is seconds, added_at
milliseconds. -/
def mkQueueItem (tab : TabInfo) (content : ExtractedContent) (nowMs : Nat) :
    SaveIntent :=
  { title := if content.title = "" then tab.title else content.title,
    url := tab.url,
    selection := content.summary,
    created_at := nowMs / 1000,
    added_at := nowMs }

/-- addToSyncQueue from background.js: unconditionally append the new intent
to the persisted queue (no credential check). -/
def addToSyncQueue (st : Storage) (tab : TabInfo) (content : ExtractedContent)
    (nowMs : Nat) : Storage :=
  { st with syncQueue := st.syncQueue ++ [mkQueueItem tab content nowMs] }

/-- User-visible notifications created by the capture listener. -/
inductive Notice where
  | duplicate
  | saving
  | success
  | failure
deriving Repr, DecidableEq

/-- The browserAction.onClicked listener: duplicate check, then extraction
(whose outcome is the extractionOk parameter), then addToSyncQueue, success
notification and a refresh broadcast.  Returns the new storage, the notices
shown, the broadcasts sent, and whether a drain was triggered. -/
def onClicked (st : Storage) (db : DB) (remoteOk : Bool) (tab : TabInfo)
    (extractionOk : Bool) (content : ExtractedContent) (nowMs : Nat) :
    Storage × List Notice × List String × Bool :=
  let (isDup, st0, _db0) := checkDuplicateUrl st db remoteOk tab.url
  if isDup then (st0, [Notice.duplicate], [], false)
  else if !extractionOk then (st0, [Notice.saving, Notice.failure], [], false)
  else
    let st' := addToSyncQueue st0 tab content nowMs
    (st', [Notice.saving, Notice.success], ["refresh-bookmarks"], true)

/-- deleteBookmark from background.js: with a missing credential it throws
before touching anything; otherwise it issues the single all-or-nothing
delete batch, whose failure leaves the remote state untouched. -/
def deleteBookmark (st : Storage) (db : DB) (batchOk : Bool) (itemId : Nat) :
    Except String DB :=
  if !truthy st.tursoUrl || !truthy st.tursoToken then
    .error "Database not configured"
  else if batchOk then .ok (deleteBatch db itemId)
  else .error "batch failed"

/-- removeFromSyncQueue from sidebar.js: keep every queue entry whose url
differs from the cancelled url, and store the result.  No broadcast is
sent. -/
def removeFromSyncQueue (st : Storage) (url : String) : Storage :=
  { st with syncQueue := st.syncQueue.filter (fun item => item.url ≠ url) }

/-- Progress of one in-flight processSyncQueue execution, cut at the await
points of the source: started (about to read storage and capture the head),
working (head captured, remote calls outstanding), committing (remote work
done, about to re-read the queue, shift it and store it back). -/
inductive TaskState where
  | started
  | working (item : SaveIntent)
  | committing (item : SaveIntent)
deriving Repr, DecidableEq

/-- Whether a task is past its initial read, i.e. a Draining step is in
progress for it. -/
def TaskState.draining : TaskState → Bool
  | .started => false
  | .working _ => true
  | .committing _ => true

/-- Whole-system state for the interleaving model: the persisted storage,
the remote store, the broadcasts sent so far, and the in-flight
processSyncQueue executions. -/
structure World where
  storage : Storage
  db : DB
  messages : List String
  tasks : List TaskState
deriving Repr, DecidableEq

/-- Number of tasks whose Draining step is in progress. -/
def World.drainingCount (w : World) : Nat :=
  w.tasks.countP (fun t => t.draining)

/-- Advance in-flight execution i by one atomic segment (the code between
two awaits of processSyncQueue, remote calls assumed to succeed):
started reads the fresh storage, returns when the queue is empty or a
credential is missing, and otherwise captures queue[0]; working performs the
remote work; committing re-reads the fresh queue, shifts off whatever entry
is then at the head, stores the result, broadcasts refresh-bookmarks, and
re-invokes processSyncQueue when the stored queue is non-empty. -/
def stepTask (w : World) (i : Nat) : World :=
  match w.tasks[i]? with
  | none => w
  | some TaskState.started =>
    if w.storage.syncQueue.isEmpty || !truthy w.storage.tursoUrl
        || !truthy w.storage.tursoToken then
      { w with tasks := w.tasks.eraseIdx i }
    else
      match w.storage.syncQueue with
      | [] => { w with tasks := w.tasks.eraseIdx i }
      | item :: _ => { w with tasks := w.tasks.set i (TaskState.working item) }
  | some (TaskState.working item) =>
    { w with db := drainRemote w.db item,
             tasks := w.tasks.set i (TaskState.committing item) }
  | some (TaskState.committing _) =>
    let q' := w.storage.syncQueue.drop 1
    { storage := { w.storage with syncQueue := q' },
      db := w.db,
      messages := w.messages ++ ["refresh-bookmarks"],
      tasks := w.tasks.eraseIdx i ++ (if q'.isEmpty then [] else [TaskState.started]) }

/-- External events: a drain trigger (the unconditional processSyncQueue()
call made after an enqueue or by the sync-check alarm), a user cancellation
via removeFromSyncQueue in the sidebar, and the scheduler advancing
in-flight execution i by one segment. -/
inductive Event where
  | trigger
  | cancel (url : String)
  | step (i : Nat)
deriving Repr, DecidableEq

/-- Apply one event to the world.  A trigger always spawns a fresh
processSyncQueue execution: the source has no busy flag, so nothing inspects
the in-flight tasks.  A cancellation filters the persisted queue by url and
sends no broadcast. -/
def applyEvent (w : World) (e : Event) : World :=
  match e with
  | .trigger => { w with tasks := w.tasks ++ [TaskState.started] }
  | .cancel url => { w with storage := removeFromSyncQueue w.storage url }
  | .step i => stepTask w i

/-- Run a list of events from a starting world. -/
def runEvents (w : World) (es : List Event) : World :=
  es.foldl applyEvent w

/-- Empty remote store used by concrete scenarios. -/
def dbEmpty : DB :=
  { workspaces := [], tags := [], items := [], item_tags := [],
    nextWorkspaceId := 1, nextTagId := 1, nextItemId := 1 }

/-- Concrete pending intent used by concrete scenarios. -/
def intentA : SaveIntent :=
  { title := "A", url := "https://a.example", selection := "sa",
    created_at := 100, added_at := 100000 }

/-- Second concrete pending intent with a different url. -/
def intentB : SaveIntent :=
  { title := "B", url := "https://b.example", selection := "sb",
    created_at := 200, added_at := 200000 }

/-- Intent that shares intentA's url but differs in its other fields. -/
def intentA2 : SaveIntent :=
  { title := "A2", url := "https://a.example", selection := "sa2",
    created_at := 300, added_at := 300000 }

/-- Storage with both credentials configured and the given queue. -/
def stWith (q : List SaveIntent) : Storage :=
  { tursoUrl := some "libsql://db.example", tursoToken := some "tok",
    syncQueue := q }

/-- Storage with no credentials configured and an empty queue. -/
def stNoCreds : Storage := { tursoUrl := none, tursoToken := none, syncQueue := [] }

/-- Concrete tab for capture scenarios. -/
def tabA : TabInfo := { title := "Tab A", url := "https://a.example" }

/-- Concrete extracted content for capture scenarios. -/
def contentA : ExtractedContent := { title := "A", summary := "sum" }

/-- Remote store holding one workspace at position 5, for the Reference
Resolver scenarios. -/
def dbW : DB :=
  { dbEmpty with
      workspaces := [{ id := 7, name := "other", position := some 5 }],
      nextWorkspaceId := 8 }

/-- Idle world with credentials configured and intentA queued. -/
def wIdleA : World :=
  { storage := stWith [intentA], db := dbEmpty, messages := [], tasks := [] }

/-- World in which one drain execution is mid-flight (Draining) on
intentA. -/
def wDrain : World :=
  { storage := stWith [intentA], db := dbEmpty, messages := [],
    tasks := [TaskState.working intentA] }

/-- Idle world with credentials configured and intentA, intentB queued. -/
def wCancelScenario : World :=
  { storage := stWith [intentA, intentB], db := dbEmpty, messages := [], tasks := [] }

/-- World about to run the commit segment for drained intentA while the
persisted queue now holds only intentB (intentA was cancelled while the
drain was in flight). -/
def wCommit : World :=
  { storage := stWith [intentB], db := dbEmpty, messages := [],
    tasks := [TaskState.committing intentA] }

/-- Claim C1, counterexample: on a queue holding two pending intents with
the same url, cancelPending removes both entries, not exactly one — the
source filters out every entry whose url matches. -/
theorem c1_counterexample :
    intentA.url = "https://a.example" ∧ intentA2.url = "https://a.example" ∧
    intentA ≠ intentA2 ∧
    (stWith [intentA, intentA2]).syncQueue.length = 2 ∧
    (removeFromSyncQueue (stWith [intentA, intentA2]) "https://a.example").syncQueue = [] := by
  decide

/-- Claim C1, amended: cancelling a pending intent removes every entry whose
url matches the cancelled url (exactly one when the queue holds at most one
match, the invariant the Duplicate Guard maintains for capture-created
queues) and leaves every other entry and their relative order unchanged. -/
theorem c1_amended (st : Storage) (url : String) :
    (removeFromSyncQueue st url).syncQueue.Sublist st.syncQueue ∧
    (∀ it ∈ (removeFromSyncQueue st url).syncQueue, it.url ≠ url) ∧
    (removeFromSyncQueue st url).syncQueue.length
        + st.syncQueue.countP (fun it => it.url = url)
      = st.syncQueue.length := by
  refine ⟨List.filter_sublist _, ?_, ?_⟩
  · intro it hit
    have h := List.of_mem_filter hit
    simpa using h
  · have h := List.length_eq_length_filter_add
      (l := st.syncQueue) (fun it => decide (it.url = url))
    have hc : st.syncQueue.countP (fun it => decide (it.url = url))
        = (st.syncQueue.filter (fun it => decide (it.url = url))).length :=
      List.countP_eq_length_filter _ _
    have he : (removeFromSyncQueue st url).syncQueue
        = st.syncQueue.filter (fun it => !(decide (it.url = url))) := by
      simp [removeFromSyncQueue]
    rw [he, hc]
    omega

/-- Witness for c1_amended at a concrete queue and url. -/
theorem c1_amended_witness :
    ((removeFromSyncQueue (stWith [intentA, intentB]) "https://a.example").syncQueue).length
        + (stWith [intentA, intentB]).syncQueue.countP
            (fun it => it.url = "https://a.example")
      = (stWith [intentA, intentB]).syncQueue.length ∧
    intentB.url ≠ "https://a.example" :=
  ⟨(c1_amended (stWith [intentA, intentB]) "https://a.example").2.2,
   (c1_amended (stWith [intentA, intentB]) "https://a.example").2.1 intentB (by decide)⟩

/-- Claim C4, counterexample: with no remote credentials configured, a
capture attempt surfaces no configuration error — it appends the intent to
the outbox and shows the saving and success notices. -/
theorem c4_counterexample :
    truthy stNoCreds.tursoUrl = false ∧ truthy stNoCreds.tursoToken = false ∧
    (onClicked stNoCreds dbEmpty true tabA true contentA 100000).1.syncQueue
      = [mkQueueItem tabA contentA 100000] ∧
    (onClicked stNoCreds dbEmpty true tabA true contentA 100000).2.1
      = [Notice.saving, Notice.success] ∧
    Notice.failure ∉ (onClicked stNoCreds dbEmpty true tabA true contentA 100000).2.1 := by
  decide

/-- Claim C4, amended: when no remote credentials are configured a capture
attempt does not fail: the Duplicate Guard skips the remote lookup, the
intent is appended to the outbox, a success notice is shown, and the
triggered drain returns immediately, leaving the queue and the remote store
untouched. -/
theorem c4_amended (st : Storage) (db : DB) (remoteOk : Bool) (tab : TabInfo)
    (content : ExtractedContent) (nowMs : Nat) (sched : List Bool)
    (hcred : truthy st.tursoUrl = false ∨ truthy st.tursoToken = false)
    (hq : st.syncQueue.any (fun it => it.url = tab.url) = false) :
    onClicked st db remoteOk tab true content nowMs
      = ({ st with syncQueue := st.syncQueue ++ [mkQueueItem tab content nowMs] },
         [Notice.saving, Notice.success], ["refresh-bookmarks"], true) ∧
    processSyncQueueStep
        { st with syncQueue := st.syncQueue ++ [mkQueueItem tab content nowMs] } db sched
      = .ok ({ st with syncQueue := st.syncQueue ++ [mkQueueItem tab content nowMs] },
             db, [], false) := by
  constructor
  · unfold onClicked checkDuplicateUrl addToSyncQueue
    rcases hcred with h | h <;> simp [hq, h]
  · unfold processSyncQueueStep
    rcases hcred with h | h <;> simp [h]

/-- Witness for c4_amended at a concrete unconfigured storage. -/
theorem c4_amended_witness :
    onClicked stNoCreds dbEmpty true tabA true contentA 100000
      = ({ stNoCreds with
             syncQueue := stNoCreds.syncQueue ++ [mkQueueItem tabA contentA 100000] },
         [Notice.saving, Notice.success], ["refresh-bookmarks"], true) :=
  (c4_amended stNoCreds dbEmpty true tabA contentA 100000 []
    (Or.inl (by decide)) (by decide)).1

/-- Claim C5, counterexample: the Workspace kind of the Reference Resolver
does not compute a position.  With an existing workspace at position 5 the
claim requires the inserted row to carry position 6 (1 + max), but the
insert sets only the name, leaving the position NULL. -/
theorem c5_counterexample :
    (dbW.workspaces.map (fun w => w.position)) = [some 5] ∧
    nextPosition [5] = 6 ∧
    ((ensureWorkspace dbW "web-bookmark").2.1.workspaces.map (fun w => w.position))
      = [some 5, none] ∧
    (none : Option Nat) ≠ some 6 ∧ (none : Option Nat) ≠ some 0 := by
  decide

/-- Claim C5, amended: on a missed lookup the Tag kind inserts with position
1 + max(existing positions) (0 when none exist) and returns the generated
id; the Workspace kind inserts the name only — its position is left unset —
and returns the generated id. -/
theorem c5_amended (db : DB) (name color : String) :
    (tagRowsByName db name = [] →
      ensureTag db name color
        = (db.nextTagId,
           { db with
               tags := db.tags
                 ++ [⟨db.nextTagId, name, color,
                      nextPosition (db.tags.map (fun t => t.position))⟩],
               nextTagId := db.nextTagId + 1 },
           [Stmt.selectTag name, Stmt.insertTag name color])) ∧
    (wsRowsByName db name = [] →
      ensureWorkspace db name
        = (db.nextWorkspaceId,
           { db with
               workspaces := db.workspaces ++ [⟨db.nextWorkspaceId, name, none⟩],
               nextWorkspaceId := db.nextWorkspaceId + 1 },
           [Stmt.selectWorkspace name, Stmt.insertWorkspace name])) := by
  constructor
  · intro h
    simp [ensureTag, h, insertTagRow]
  · intro h
    simp [ensureWorkspace, h, insertWorkspaceRow]

/-- Witness for c5_amended on the empty store. -/
theorem c5_amended_witness :
    ensureTag dbEmpty "t1" "#fff"
      = (dbEmpty.nextTagId,
         { dbEmpty with
             tags := dbEmpty.tags
               ++ [⟨dbEmpty.nextTagId, "t1", "#fff",
                    nextPosition (dbEmpty.tags.map (fun t => t.position))⟩],
             nextTagId := dbEmpty.nextTagId + 1 },
         [Stmt.selectTag "t1", Stmt.insertTag "t1" "#fff"]) :=
  (c5_amended dbEmpty "t1" "#fff").1 (by decide)

/-- Claim C2, counterexample: with a Draining step in progress, a trigger is
not a no-op — it starts a second concurrent drain execution (there is no
busy flag), and letting both run to completion inserts the single queued
intent into the remote store twice. -/
theorem c2_counterexample :
    wDrain.drainingCount = 1 ∧
    applyEvent wDrain Event.trigger ≠ wDrain ∧
    (runEvents wDrain [Event.trigger, Event.step 1]).drainingCount = 2 ∧
    ((runEvents wIdleA
        [Event.trigger, Event.step 0, Event.trigger, Event.step 1, Event.step 0,
         Event.step 1, Event.step 0, Event.step 0]).db.items.map (fun r => r.url))
      = ["https://a.example", "https://a.example"] ∧
    (runEvents wIdleA
        [Event.trigger, Event.step 0, Event.trigger, Event.step 1, Event.step 0,
         Event.step 1, Event.step 0, Event.step 0]).tasks = [] := by
  decide

/-- Claim C2, amended: no coalescing or busy flag exists.  A trigger
arriving while a Draining step is in progress unconditionally spawns an
additional processSyncQueue execution, so at least two executions are then
in flight; the number of mid-drain executions is unaffected rather than
guarded. -/
theorem c2_amended (w : World) (h : 1 ≤ w.drainingCount) :
    (applyEvent w Event.trigger).tasks.length = w.tasks.length + 1 ∧
    2 ≤ (applyEvent w Event.trigger).tasks.length ∧
    (applyEvent w Event.trigger).drainingCount = w.drainingCount := by
  refine ⟨?_, ?_, ?_⟩
  · simp [applyEvent]
  · have hle : w.drainingCount ≤ w.tasks.length := List.countP_le_length _
    simp [applyEvent]
    omega
  · simp [applyEvent, World.drainingCount, TaskState.draining]

/-- Witness for c2_amended at a world with one mid-drain execution. -/
theorem c2_amended_witness :
    (applyEvent wDrain Event.trigger).tasks.length = wDrain.tasks.length + 1 ∧
    2 ≤ (applyEvent wDrain Event.trigger).tasks.length :=
  ⟨(c2_amended wDrain (by decide)).1, (c2_amended wDrain (by decide)).2.1⟩

/-- Claim C3, counterexample: queue [A, B]; a drain starts on A; the user
cancels A while the drain is in flight; the commit then shifts off whatever
is at the head of the re-read queue — here B, which was never drained.  The
run ends with an empty outbox, A committed remotely and B lost. -/
theorem c3_counterexample :
    (runEvents wCancelScenario
        [Event.trigger, Event.step 0, Event.cancel "https://a.example",
         Event.step 0, Event.step 0]).storage.syncQueue = [] ∧
    ((runEvents wCancelScenario
        [Event.trigger, Event.step 0, Event.cancel "https://a.example",
         Event.step 0, Event.step 0]).db.items.map (fun r => r.url))
      = ["https://a.example"] ∧
    intentB.url = "https://b.example" ∧
    "https://b.example" ∉
      ((runEvents wCancelScenario
          [Event.trigger, Event.step 0, Event.cancel "https://a.example",
           Event.step 0, Event.step 0]).db.items.map (fun r => r.url)) := by
  decide

/-- Claim C3, amended: after a successful commit the engine re-reads the
persisted outbox and removes whichever entry is then at the head
(currentQueue.shift), independent of the drained intent's identity; when
the queue was mutated during the in-flight drain this can remove a
different, never-drained entry. -/
theorem c3_amended (w : World) (i : Nat) (item : SaveIntent)
    (h : w.tasks[i]? = some (TaskState.committing item)) :
    (stepTask w i).storage.syncQueue = w.storage.syncQueue.drop 1 := by
  unfold stepTask
  simp [h]

/-- Witness for c3_amended: the commit segment for drained intentA removes
intentB, the entry at the head of the mutated queue. -/
theorem c3_amended_witness :
    (stepTask wCommit 0).storage.syncQueue = [] ∧
    wCommit.storage.syncQueue = [intentB] ∧
    wCommit.tasks = [TaskState.committing intentA] := by
  have h := c3_amended wCommit 0 intentA (by decide)
  exact ⟨by simpa using h, by decide, by decide⟩

/-- Claim C8, counterexample: cancelling a pending intent emits no refresh
broadcast — the queue entry disappears but the messages list stays empty. -/
theorem c8_counterexample :
    (applyEvent wIdleA (Event.cancel "https://a.example")).storage.syncQueue = [] ∧
    (applyEvent wIdleA (Event.cancel "https://a.example")).messages = [] := by
  decide

/-- Claim C8, amended: the refresh broadcast is emitted after every
successful drain commit, but a cancellation emits none — removeFromSyncQueue
only rewrites the stored queue and the sidebar refreshes its own DOM
locally. -/
theorem c8_amended (w : World) (i : Nat) (item : SaveIntent) (url : String)
    (h : w.tasks[i]? = some (TaskState.committing item)) :
    (stepTask w i).messages = w.messages ++ ["refresh-bookmarks"] ∧
    (applyEvent w (Event.cancel url)).messages = w.messages := by
  constructor
  · unfold stepTask
    simp [h]
  · simp [applyEvent]

/-- Witness for c8_amended at the concrete commit world. -/
theorem c8_amended_witness :
    (stepTask wCommit 0).messages = ["refresh-bookmarks"] ∧
    (applyEvent wCommit (Event.cancel "https://a.example")).messages = [] := by
  have h := c8_amended wCommit 0 intentA "https://a.example" (by decide)
  exact ⟨by simpa using h.1, by simpa using h.2⟩

/-- Claim C6: the Duplicate Guard consults the outbox first, performs the
remote one-row lookup only when both credentials are configured, returns
false when that lookup fails (fails open), and mutates neither the outbox
nor the remote store. -/
theorem c6_duplicateGuard (st : Storage) (db : DB) (remoteOk : Bool) (url : String) :
    ((checkDuplicateUrl st db remoteOk url).2.1 = st ∧
     (checkDuplicateUrl st db remoteOk url).2.2 = db) ∧
    (st.syncQueue.any (fun it => it.url = url) = true →
      (checkDuplicateUrl st db remoteOk url).1 = true) ∧
    (st.syncQueue.any (fun it => it.url = url) = false →
      (truthy st.tursoUrl = false ∨ truthy st.tursoToken = false) →
      (checkDuplicateUrl st db remoteOk url).1 = false) ∧
    (st.syncQueue.any (fun it => it.url = url) = false →
      truthy st.tursoUrl = true → truthy st.tursoToken = true → remoteOk = false →
      (checkDuplicateUrl st db remoteOk url).1 = false) ∧
    (st.syncQueue.any (fun it => it.url = url) = false →
      truthy st.tursoUrl = true → truthy st.tursoToken = true → remoteOk = true →
      (checkDuplicateUrl st db remoteOk url).1
        = !((itemRowsByUrl db url).take 1).isEmpty) := by
  refine ⟨⟨?_, ?_⟩, ?_, ?_, ?_, ?_⟩
  · unfold checkDuplicateUrl
    split_ifs <;> rfl
  · unfold checkDuplicateUrl
    split_ifs <;> rfl
  · intro h
    simp [checkDuplicateUrl, h]
  · intro h hcred
    rcases hcred with hc | hc <;> simp [checkDuplicateUrl, h, hc]
  · intro h hu ht hr
    simp [checkDuplicateUrl, h, hu, ht, hr]
  · intro h hu ht hr
    simp [checkDuplicateUrl, h, hu, ht, hr]

/-- Witness for c6_duplicateGuard: a queued url is reported duplicate while
the remote is down; an unqueued url with a failing remote is allowed; the
check leaves the storage untouched. -/
theorem c6_witness :
    (checkDuplicateUrl (stWith [intentA]) dbEmpty false "https://a.example").1 = true ∧
    (checkDuplicateUrl (stWith []) dbEmpty false "https://a.example").1 = false ∧
    (checkDuplicateUrl (stWith []) dbEmpty false "https://a.example").2.1 = stWith [] := by
  have h1 := c6_duplicateGuard (stWith [intentA]) dbEmpty false "https://a.example"
  have h2 := c6_duplicateGuard (stWith []) dbEmpty false "https://a.example"
  exact ⟨h1.2.1 (by decide),
         h2.2.2.2.1 (by decide) (by decide) (by decide) rfl,
         h2.1.1⟩

/-- Claim C7: processSyncQueue never lets an error escape (every remote
failure of the drain body is caught), and on any such failure the persisted
queue is unchanged — the intent stays at the head — no broadcast is sent
and the engine does not immediately retry within the same run. -/
theorem c7_requeueOnFailure (st : Storage) (db : DB) (sched : List Bool) :
    (∃ r, processSyncQueueStep st db sched = Except.ok r) ∧
    (∀ item rest dbe,
      st.syncQueue = item :: rest →
      truthy st.tursoUrl = true → truthy st.tursoToken = true →
      drainBodyF db item sched = Except.error dbe →
      processSyncQueueStep st db sched = Except.ok (st, dbe, [], false)) := by
  constructor
  · unfold processSyncQueueStep
    split
    · exact ⟨_, rfl⟩
    · split
      · exact ⟨_, rfl⟩
      · split
        · exact ⟨_, rfl⟩
        · exact ⟨_, rfl⟩
  · intro item rest dbe hq hu ht hb
    unfold processSyncQueueStep
    simp [hq, hu, ht, hb]

/-- Witness for c7_requeueOnFailure: the very first remote call fails; the
step returns normally with the queue and remote store unchanged, no
broadcast and no immediate retry. -/
theorem c7_witness :
    processSyncQueueStep (stWith [intentA]) dbEmpty [true]
      = Except.ok (stWith [intentA], dbEmpty, [], false) :=
  (c7_requeueOnFailure (stWith [intentA]) dbEmpty [true]).2 intentA [] dbEmpty
    rfl (by decide) (by decide) rfl

/-- Behaviour of ensureTag when the lookup hits: the first row's id is
returned, the store is untouched and only the SELECT is issued. -/
theorem ensureTag_found (db : DB) (name color : String) (t : TagRow) (ts : List TagRow)
    (h : tagRowsByName db name = t :: ts) :
    ensureTag db name color = (t.id, db, [Stmt.selectTag name]) := by
  unfold ensureTag
  rw [h]

/-- Behaviour of ensureWorkspace when the lookup hits. -/
theorem ensureWorkspace_found (db : DB) (name : String) (w : WorkspaceRow)
    (ws : List WorkspaceRow) (h : wsRowsByName db name = w :: ws) :
    ensureWorkspace db name = (w.id, db, [Stmt.selectWorkspace name]) := by
  unfold ensureWorkspace
  rw [h]

/-- Claim C9: calling the Reference Resolver twice with the same name and no
intervening creation returns the same id both times, leaves the store
unchanged on the second call, and the second call issues only the SELECT —
no insert statement.  This holds for both the Tag and the Workspace kind. -/
theorem c9_ensure_idempotent (db : DB) (name color : String) :
    ((ensureTag (ensureTag db name color).2.1 name color).1
        = (ensureTag db name color).1 ∧
     (ensureTag (ensureTag db name color).2.1 name color).2.1
        = (ensureTag db name color).2.1 ∧
     (ensureTag (ensureTag db name color).2.1 name color).2.2
        = [Stmt.selectTag name]) ∧
    ((ensureWorkspace (ensureWorkspace db name).2.1 name).1
        = (ensureWorkspace db name).1 ∧
     (ensureWorkspace (ensureWorkspace db name).2.1 name).2.1
        = (ensureWorkspace db name).2.1 ∧
     (ensureWorkspace (ensureWorkspace db name).2.1 name).2.2
        = [Stmt.selectWorkspace name]) := by
  constructor
  · cases h : tagRowsByName db name with
    | cons t ts =>
      have e1 := ensureTag_found db name color t ts h
      simp [e1]
    | nil =>
      have h2 : tagRowsByName (insertTagRow db name color).2 name
          = [⟨db.nextTagId, name, color,
              nextPosition (db.tags.map (fun t => t.position))⟩] := by
        unfold tagRowsByName at h ⊢
        simp [insertTagRow, List.filter_append, h]
      have e1 : ensureTag db name color
          = (db.nextTagId, (insertTagRow db name color).2,
             [Stmt.selectTag name, Stmt.insertTag name color]) := by
        unfold ensureTag
        rw [h]
        simp [insertTagRow]
      have e2 := ensureTag_found (insertTagRow db name color).2 name color _ [] h2
      simp [e1, e2]
  · cases h : wsRowsByName db name with
    | cons w ws =>
      have e1 := ensureWorkspace_found db name w ws h
      simp [e1]
    | nil =>
      have h2 : wsRowsByName (insertWorkspaceRow db name).2 name
          = [⟨db.nextWorkspaceId, name, none⟩] := by
        unfold wsRowsByName at h ⊢
        simp [insertWorkspaceRow, List.filter_append, h]
      have e1 : ensureWorkspace db name
          = (db.nextWorkspaceId, (insertWorkspaceRow db name).2,
             [Stmt.selectWorkspace name, Stmt.insertWorkspace name]) := by
        unfold ensureWorkspace
        rw [h]
        simp [insertWorkspaceRow]
      have e2 := ensureWorkspace_found (insertWorkspaceRow db name).2 name _ [] h2
      simp [e1, e2]

/-- Claim C10: deleteBookmark fails with a configuration error and touches
nothing when a credential is missing; with credentials it issues the single
all-or-nothing batch — on success no join row for the item and no item row
remain while every other row (and the workspaces and tags tables) is
untouched, and on batch failure it reports an error with no partial
removal. -/
theorem c10_deleteBookmark (st : Storage) (db : DB) (batchOk : Bool) (itemId : Nat) :
    ((truthy st.tursoUrl = false ∨ truthy st.tursoToken = false) →
      deleteBookmark st db batchOk itemId = Except.error "Database not configured") ∧
    (truthy st.tursoUrl = true → truthy st.tursoToken = true → batchOk = false →
      deleteBookmark st db batchOk itemId = Except.error "batch failed") ∧
    (truthy st.tursoUrl = true → truthy st.tursoToken = true → batchOk = true →
      deleteBookmark st db batchOk itemId = Except.ok (deleteBatch db itemId)) ∧
    (∀ r ∈ (deleteBatch db itemId).item_tags, r.item_id ≠ itemId) ∧
    (∀ r ∈ (deleteBatch db itemId).items, r.id ≠ itemId) ∧
    (∀ r ∈ db.item_tags, r.item_id ≠ itemId → r ∈ (deleteBatch db itemId).item_tags) ∧
    (∀ r ∈ db.items, r.id ≠ itemId → r ∈ (deleteBatch db itemId).items) ∧
    (deleteBatch db itemId).workspaces = db.workspaces ∧
    (deleteBatch db itemId).tags = db.tags := by
  refine ⟨?_, ?_, ?_, ?_, ?_, ?_, ?_, rfl, rfl⟩
  · intro h
    rcases h with h | h <;> simp [deleteBookmark, h]
  · intro h1 h2 h3
    simp [deleteBookmark, h1, h2, h3]
  · intro h1 h2 h3
    simp [deleteBookmark, h1, h2, h3]
  · intro r hr
    simp only [deleteBatch, List.mem_filter] at hr
    simpa using hr.2
  · intro r hr
    simp only [deleteBatch, List.mem_filter] at hr
    simpa using hr.2
  · intro r hr hne
    simp only [deleteBatch, List.mem_filter]
    exact ⟨hr, by simpa using hne⟩
  · intro r hr hne
    simp only [deleteBatch, List.mem_filter]
    exact ⟨hr, by simpa using hne⟩

/-- Remote store with two items and three join rows for the delete
scenario. -/
def dbDel : DB :=
  { workspaces := [], tags := [],
    items := [⟨1, "A", "u", "", "daily", 1, 0, 0, 0⟩,
              ⟨2, "B", "v", "", "daily", 1, 1, 0, 0⟩],
    item_tags := [⟨1, 1⟩, ⟨1, 2⟩, ⟨2, 1⟩],
    nextWorkspaceId := 1, nextTagId := 1, nextItemId := 3 }

/-- Witness for c10_deleteBookmark on a concrete store: success removes item
1 and both of its join rows while keeping item 2's join row; missing
credentials and a failed batch each yield the corresponding error. -/
theorem c10_witness :
    deleteBookmark (stWith []) dbDel true 1 = Except.ok (deleteBatch dbDel 1) ∧
    deleteBookmark stNoCreds dbDel true 1 = Except.error "Database not configured" ∧
    deleteBookmark (stWith []) dbDel false 1 = Except.error "batch failed" ∧
    (deleteBatch dbDel 1).item_tags = [⟨2, 1⟩] ∧
    (deleteBatch dbDel 1).items = [⟨2, "B", "v", "", "daily", 1, 1, 0, 0⟩] := by
  have h := c10_deleteBookmark (stWith []) dbDel true 1
  have h2 := c10_deleteBookmark stNoCreds dbDel true 1
  have h3 := c10_deleteBookmark (stWith []) dbDel false 1
  exact ⟨h.2.2.1 (by decide) (by decide) rfl,
         h2.1 (Or.inl (by decide)),
         h3.2.1 (by decide) (by decide) rfl,
         by decide, by decide⟩

end TagAll
